import Mathlib

/-
Verification development for the PCHOL counter bot (src/bot.py).

The three Postgres tables (messages, bee_count, global_frozen_users) are
embedded as association lists keyed exactly as their primary keys.  Each
Database helper of src/bot.py becomes a pure state transformer on `Db`.
The message-created and message-edited event handlers are not present in
src (the file is truncated after line 464, inside on_confirm); they are
modelled from the specification, over the source Database operations.
-/

set_option autoImplicit false

namespace PcholBot

abbrev ChatId := Int
abbrev MessageId := Int
abbrev UserId := Int

/-- A row of the `messages` table: user_id BIGINT (nullable), bees_count INT. -/
structure MsgRow where
  user_id : Option UserId
  bees_count : Int
  deriving DecidableEq, Repr

/-- A row of the `bee_count` table: username TEXT (nullable), count BIGINT. -/
structure BeeRow where
  username : Option String
  count : Int
  deriving DecidableEq, Repr

/-- A row of the `global_frozen_users` table: username TEXT (nullable). -/
structure FrozenRow where
  username : Option String
  deriving DecidableEq, Repr

/-- The whole database state: the three tables created in Database.connect,
each keyed by its primary key. -/
structure Db where
  messages : List ((ChatId × MessageId) × MsgRow)
  bee_count : List ((ChatId × UserId) × BeeRow)
  global_frozen : List (UserId × FrozenRow)
  deriving DecidableEq, Repr

def Db.empty : Db := ⟨[], [], []⟩

/-- First row whose key matches, as a SELECT by primary key. -/
def alistLookup {K V : Type} [DecidableEq K] : List (K × V) → K → Option V
  | [], _ => none
  | (k0, v) :: rest, k => if k0 = k then some v else alistLookup rest k

/-- UPDATE ... WHERE key: rewrite every row whose key matches. -/
def alistUpdate {K V : Type} [DecidableEq K] (k : K) (f : V → V) : List (K × V) → List (K × V)
  | [] => []
  | (k0, v) :: rest =>
    if k0 = k then (k0, f v) :: alistUpdate k f rest
    else (k0, v) :: alistUpdate k f rest

/-- DELETE ... WHERE key. -/
def alistDelete {K V : Type} [DecidableEq K] (k : K) : List (K × V) → List (K × V)
  | [] => []
  | p :: rest => if p.1 = k then alistDelete k rest else p :: alistDelete k rest

/-- INSERT ... ON CONFLICT (key) DO UPDATE: append a fresh row when the key is
absent, otherwise apply the conflict action to the existing row. -/
def alistUpsert {K V : Type} [DecidableEq K] (k : K) (v : V) (f : V → V)
    (l : List (K × V)) : List (K × V) :=
  match alistLookup l k with
  | some _ => alistUpdate k f l
  | none => l ++ [(k, v)]

/-- SQL COALESCE on two nullable text values. -/
def coalesce (a b : Option String) : Option String :=
  match a with
  | some x => some x
  | none => b

namespace Database

/-- Embeds Database.get_message_bees (src/bot.py 103-106): SELECT bees_count
FROM messages by primary key. -/
def get_message_bees (db : Db) (chat_id : ChatId) (message_id : MessageId) : Option Int :=
  (alistLookup db.messages (chat_id, message_id)).map MsgRow.bees_count

/-- Embeds Database.insert_message (src/bot.py 108-114): INSERT INTO messages
... ON CONFLICT (chat_id, message_id) DO NOTHING. -/
def insert_message (db : Db) (chat_id : ChatId) (message_id : MessageId)
    (user_id : Option UserId) (bees : Int) : Db :=
  match alistLookup db.messages (chat_id, message_id) with
  | some _ => db
  | none => { db with messages := db.messages ++ [((chat_id, message_id), ⟨user_id, bees⟩)] }

/-- Embeds Database.update_message_bees (src/bot.py 116-118): UPDATE messages
SET bees_count = new WHERE primary key matches.  Only the count column is
written; user_id is untouched. -/
def update_message_bees (db : Db) (chat_id : ChatId) (message_id : MessageId)
    (new_bees : Int) : Db :=
  { db with messages :=
      alistUpdate (chat_id, message_id) (fun r => { r with bees_count := new_bees }) db.messages }

/-- Embeds Database.add_user_bees (src/bot.py 121-131): early return on
delta == 0, else INSERT INTO bee_count ... ON CONFLICT DO UPDATE SET
count = count + delta, username = COALESCE(new, old). -/
def add_user_bees (db : Db) (chat_id : ChatId) (user_id : UserId)
    (username : Option String) (delta : Int) : Db :=
  if delta = 0 then db
  else
    let tbl := alistUpsert (chat_id, user_id) (⟨username, delta⟩ : BeeRow)
      (fun r => ⟨coalesce username r.username, r.count + delta⟩) db.bee_count
    { db with bee_count := tbl }

/-- Embeds Database.adjust_user_bees (src/bot.py 133-143): early return on
delta == 0, else INSERT INTO bee_count(chat_id, user_id, count) ... ON
CONFLICT DO UPDATE SET count = count + delta.  The username column is
omitted from the insert (NULL) and absent from the conflict action. -/
def adjust_user_bees (db : Db) (chat_id : ChatId) (user_id : UserId) (delta : Int) : Db :=
  if delta = 0 then db
  else
    let tbl := alistUpsert (chat_id, user_id) (⟨none, delta⟩ : BeeRow)
      (fun r => ⟨r.username, r.count + delta⟩) db.bee_count
    { db with bee_count := tbl }

/-- Embeds Database.get_total (src/bot.py 145-148): COALESCE(SUM(count), 0)
over the rows of one chat. -/
def get_total (db : Db) (chat_id : ChatId) : Int :=
  ((db.bee_count.filter (fun p => p.1.1 == chat_id)).map (fun p => p.2.count)).sum

/-- Embeds Database.get_user_count (src/bot.py 155-158): SELECT count by
primary key, 0 when no row exists. -/
def get_user_count (db : Db) (chat_id : ChatId) (user_id : UserId) : Int :=
  match alistLookup db.bee_count (chat_id, user_id) with
  | some r => r.count
  | none => 0

/-- Embeds Database.is_globally_frozen (src/bot.py 161-164): row existence in
global_frozen_users. -/
def is_globally_frozen (db : Db) (user_id : UserId) : Bool :=
  (alistLookup db.global_frozen user_id).isSome

/-- Embeds Database.freeze_global (src/bot.py 166-168): INSERT INTO
global_frozen_users ... ON CONFLICT (user_id) DO UPDATE SET
username = EXCLUDED.username. -/
def freeze_global (db : Db) (user_id : UserId) (username : Option String) : Db :=
  { db with global_frozen :=
      alistUpsert user_id ⟨username⟩ (fun _ => ⟨username⟩) db.global_frozen }

/-- Embeds Database.unfreeze_global (src/bot.py 170-172): DELETE FROM
global_frozen_users WHERE user_id matches. -/
def unfreeze_global (db : Db) (user_id : UserId) : Db :=
  { db with global_frozen := alistDelete user_id db.global_frozen }

/-- Rows of bee_count belonging to one chat, in table order. -/
def chatRows (db : Db) (chat_id : ChatId) : List ((ChatId × UserId) × BeeRow) :=
  db.bee_count.filter (fun p => p.1.1 == chat_id)

/-- The ORDER BY count DESC condition of get_top10. -/
def countsDescending (l : List ((ChatId × UserId) × BeeRow)) : Prop :=
  List.Sorted (fun a b => b.2.count ≤ a.2.count) l

/-- Embeds Database.get_top10 (src/bot.py 150-153): SELECT user_id, username,
count FROM bee_count WHERE chat_id = $1 ORDER BY count DESC LIMIT 10.  The
ORDER BY names no secondary key, so SQL admits any order among rows with
equal count: the query denotes a relation between the store and the possible
result sequences, not a function. -/
def get_top10 (db : Db) (chat_id : ChatId)
    (res : List (UserId × Option String × Int)) : Prop :=
  ∃ l, List.Perm l (chatRows db chat_id) ∧ countsDescending l ∧
    res = (l.take 10).map (fun p => (p.1.2, p.2.username, p.2.count))

end Database

/-- The counted symbol: BEE = the bee emoji (src/bot.py 189). -/
def BEE : Char := '🐝'

/-- Text surfaces of an incoming Telegram message, each independently
absent: msg.text, msg.caption, msg.sticker.emoji (src/bot.py 191-201). -/
structure TgMessage where
  text : Option (List Char)
  caption : Option (List Char)
  sticker_emoji : Option (List Char)
  deriving DecidableEq, Repr

/-- Python str.count for a nonempty needle: non-overlapping occurrences,
scanning left to right, with fuel for structural recursion. -/
def pyCountSubAux (sub : List Char) : Nat → List Char → Nat
  | 0, _ => 0
  | _ + 1, [] => 0
  | fuel + 1, c :: rest =>
    if sub.isPrefixOf (c :: rest) && !sub.isEmpty then
      1 + pyCountSubAux sub fuel ((c :: rest).drop sub.length)
    else
      pyCountSubAux sub fuel rest

/-- Python str.count of a nonempty substring. -/
def pyCountSub (sub s : List Char) : Nat :=
  pyCountSubAux sub s.length s

/-- Embeds count_bees_in_message (src/bot.py 191-201): concatenate the
truthy text surfaces, a single space before caption and sticker emoji,
then txt.count(BEE).  Python truthiness makes an empty surface behave like
an absent one. -/
def count_bees_in_message (msg : TgMessage) : Nat :=
  let txt : List Char := []
  let txt := match msg.text with
    | some t => if t = [] then txt else txt ++ t
    | none => txt
  let txt := match msg.caption with
    | some cap => if cap = [] then txt else txt ++ (' ' :: cap)
    | none => txt
  let txt := match msg.sticker_emoji with
    | some e => if e = [] then txt else txt ++ (' ' :: e)
    | none => txt
  pyCountSub [BEE] txt

/-- Modelled from the spec: the message-created handler of the Tally Engine
(spec section 4.1) is missing from src (bot.py is truncated after line 464;
the comment at line 278 names the missing handler on_message).  Steps, in
spec order, over the source Database operations: no-op without a user id;
compute the count; no-op when a Ledger entry already exists; always persist
the Ledger entry; skip the Aggregate write for a frozen user, otherwise
add_user_bees (which itself drops a zero delta). -/
def on_message_created (db : Db) (chat_id : ChatId) (message_id : MessageId)
    (user_id : Option UserId) (username : Option String) (msg : TgMessage) : Db :=
  match user_id with
  | none => db
  | some uid =>
    let cnt : Int := (count_bees_in_message msg : Nat)
    match Database.get_message_bees db chat_id message_id with
    | some _ => db
    | none =>
      let db1 := Database.insert_message db chat_id message_id (some uid) cnt
      if Database.is_globally_frozen db uid then db1
      else Database.add_user_bees db1 chat_id uid username cnt

/-- Modelled from the spec: the message-edited handler of the Tally Engine
(spec section 4.2) is missing from src (file truncated).  Steps, in spec
order, over the source Database operations: no-op without a user id;
recompute the count; with no Ledger entry run the created path; for a frozen
user update only the stored count (update_message_bees, the only Ledger
update operation in src, writes the count column alone); otherwise apply the
delta when nonzero via adjust_user_bees and then update the stored count. -/
def on_message_edited (db : Db) (chat_id : ChatId) (message_id : MessageId)
    (user_id : Option UserId) (username : Option String) (msg : TgMessage) : Db :=
  match user_id with
  | none => db
  | some uid =>
    let new_count : Int := (count_bees_in_message msg : Nat)
    match Database.get_message_bees db chat_id message_id with
    | none => on_message_created db chat_id message_id user_id username msg
    | some old_count =>
      if Database.is_globally_frozen db uid then
        Database.update_message_bees db chat_id message_id new_count
      else if new_count - old_count = 0 then db
      else
        let db1 := Database.adjust_user_bees db chat_id uid (new_count - old_count)
        Database.update_message_bees db1 chat_id message_id new_count

/-- One primitive store statement of the create path.  In src each Database
helper acquires its own pool connection and issues a single SQL statement;
no transaction groups them. -/
inductive StoreOp where
  | insertMsg (chat_id : ChatId) (message_id : MessageId) (user_id : Option UserId) (bees : Int)
  | addUser (chat_id : ChatId) (user_id : UserId) (username : Option String) (delta : Int)
  deriving DecidableEq, Repr

/-- Effect of one primitive store statement. -/
def applyOp (db : Db) : StoreOp → Db
  | .insertMsg c m u b => Database.insert_message db c m u b
  | .addUser c u n d => Database.add_user_bees db c u n d

/-- Modelled from the spec: the sequence of primitive store statements the
created path issues, in order.  Branch decisions read the initial state,
as the missing handler would before issuing any write. -/
def created_ops (db : Db) (chat_id : ChatId) (message_id : MessageId)
    (user_id : Option UserId) (username : Option String) (msg : TgMessage) : List StoreOp :=
  match user_id with
  | none => []
  | some uid =>
    let cnt : Int := (count_bees_in_message msg : Nat)
    match Database.get_message_bees db chat_id message_id with
    | some _ => []
    | none =>
      if Database.is_globally_frozen db uid then
        [StoreOp.insertMsg chat_id message_id (some uid) cnt]
      else
        [StoreOp.insertMsg chat_id message_id (some uid) cnt,
         StoreOp.addUser chat_id uid username cnt]

/-- Execute the first k primitive statements and stop: a store failure after
the k-th statement leaves exactly this state, since no statement is rolled
back by another. -/
def runOps (db : Db) (ops : List StoreOp) (k : Nat) : Db :=
  (ops.take k).foldl applyOp db

/-- Outcome returned to the caller of the freeze workflow. -/
inductive ConfirmAction where
  | freeze
  | unfreeze
  deriving DecidableEq, Repr

/-- Embeds the authorization guard of cmd_freeze (src/bot.py 338-342): a
caller other than OWNER_ID is answered with a rejection and the handler
returns without touching any table; an authorized call only sends a
confirmation keyboard and also writes nothing.  The Bool is true when the
caller passed the owner check. -/
def cmd_freeze (db : Db) (owner_id caller_id target_uid : UserId) : Db × Bool :=
  if caller_id ≠ owner_id then (db, false) else (db, true)

/-- Embeds the authorization guard of cmd_unfreeze (src/bot.py 396-400),
identical in shape to cmd_freeze. -/
def cmd_unfreeze (db : Db) (owner_id caller_id target_uid : UserId) : Db × Bool :=
  if caller_id ≠ owner_id then (db, false) else (db, true)

/-- Embeds on_confirm (src/bot.py 454-463): the authorization guard at lines
456-458 rejects any caller other than OWNER_ID with no state change.  The
body after the guard is cut off by the truncation of src; modelled from the
spec, confirmation applies freeze_global or unfreeze_global to the target.
The Bool is true when the action was applied. -/
def on_confirm (db : Db) (owner_id caller_id : UserId) (action : ConfirmAction)
    (target_uid : UserId) (uname : Option String) : Db × Bool :=
  if caller_id ≠ owner_id then (db, false)
  else
    match action with
    | .freeze => (Database.freeze_global db target_uid uname, true)
    | .unfreeze => (Database.unfreeze_global db target_uid, true)

/-! Concrete values used by witnesses and counterexamples. -/

/-- A text message with no bee symbol. -/
def exMsg0 : TgMessage := ⟨some [' ', 'a'], none, none⟩

/-- A text message with one bee symbol. -/
def exMsg1 : TgMessage := ⟨some [BEE], none, none⟩

/-- A text message with three bee symbols. -/
def exMsg3 : TgMessage := ⟨some [BEE, BEE, BEE], none, none⟩

/-- A text message with seven bee symbols. -/
def exMsg7 : TgMessage := ⟨some [BEE, BEE, BEE, BEE, BEE, BEE, BEE], none, none⟩

/-- A store holding one message of user 5 with count 3 and the matching
aggregate row. -/
def exDbC1 : Db := ⟨[((1, 1), ⟨some 5, 3⟩)], [((1, 5), ⟨none, 3⟩)], []⟩

/-- A store where users 1 and 2 of chat 1 are tied at 9 bees. -/
def exDbTie : Db := ⟨[], [((1, 2), ⟨none, 9⟩), ((1, 1), ⟨none, 9⟩)], []⟩

/-- A store with one aggregate row carrying a cached username. -/
def exDbC10 : Db := ⟨[], [((1, 2), ⟨some "a", 5⟩)], []⟩

/-- A store where user 7 is already frozen. -/
def exDbFrozen : Db := ⟨[], [], [(7, ⟨none⟩)]⟩

/-! Association-list lemmas for the SQL access patterns. -/

theorem alistLookup_update_self {K V : Type} [DecidableEq K] (k : K) (f : V → V)
    (l : List (K × V)) :
    alistLookup (alistUpdate k f l) k = (alistLookup l k).map f := by
  induction l with
  | nil => rfl
  | cons p rest ih =>
    obtain ⟨k0, v0⟩ := p
    by_cases h : k0 = k
    · subst h; simp [alistLookup, alistUpdate]
    · simp [alistLookup, alistUpdate, h, ih]

theorem alistLookup_update_other {K V : Type} [DecidableEq K] (k k2 : K) (f : V → V)
    (l : List (K × V)) (h : k2 ≠ k) :
    alistLookup (alistUpdate k f l) k2 = alistLookup l k2 := by
  induction l with
  | nil => rfl
  | cons p rest ih =>
    obtain ⟨k0, v0⟩ := p
    by_cases hk : k0 = k
    · subst hk
      simp [alistLookup, alistUpdate, Ne.symm h, ih]
    · simp [alistLookup, alistUpdate, hk, ih]

theorem alistLookup_append_self {K V : Type} [DecidableEq K] (k : K) (v : V)
    (l : List (K × V)) (h : alistLookup l k = none) :
    alistLookup (l ++ [(k, v)]) k = some v := by
  induction l with
  | nil => simp [alistLookup]
  | cons p rest ih =>
    obtain ⟨k0, v0⟩ := p
    by_cases hk : k0 = k
    · subst hk; simp [alistLookup] at h
    · simp [alistLookup, hk] at h ⊢
      exact ih h

theorem alistLookup_append_other {K V : Type} [DecidableEq K] (k k2 : K) (v : V)
    (l : List (K × V)) (h : k2 ≠ k) :
    alistLookup (l ++ [(k, v)]) k2 = alistLookup l k2 := by
  induction l with
  | nil => simp [alistLookup, Ne.symm h]
  | cons p rest ih =>
    obtain ⟨k0, v0⟩ := p
    by_cases hk : k0 = k2
    · subst hk; simp [alistLookup]
    · simp [alistLookup, hk, ih]

theorem alistLookup_upsert_self {K V : Type} [DecidableEq K] (k : K) (v : V) (f : V → V)
    (l : List (K × V)) :
    alistLookup (alistUpsert k v f l) k
      = some (match alistLookup l k with | some w => f w | none => v) := by
  unfold alistUpsert
  cases h : alistLookup l k with
  | some w => simp [alistLookup_update_self, h]
  | none => simp [alistLookup_append_self k v l h]

theorem alistLookup_upsert_other {K V : Type} [DecidableEq K] (k k2 : K) (v : V) (f : V → V)
    (l : List (K × V)) (h : k2 ≠ k) :
    alistLookup (alistUpsert k v f l) k2 = alistLookup l k2 := by
  unfold alistUpsert
  cases hl : alistLookup l k with
  | some w => exact alistLookup_update_other k k2 f l h
  | none => exact alistLookup_append_other k k2 v l h

/-! Frame lemmas: each Database helper touches exactly one table. -/

@[simp] theorem insert_message_bee_count (db : Db) (c : ChatId) (m : MessageId)
    (u : Option UserId) (b : Int) :
    (Database.insert_message db c m u b).bee_count = db.bee_count := by
  unfold Database.insert_message; split <;> rfl

@[simp] theorem insert_message_global_frozen (db : Db) (c : ChatId) (m : MessageId)
    (u : Option UserId) (b : Int) :
    (Database.insert_message db c m u b).global_frozen = db.global_frozen := by
  unfold Database.insert_message; split <;> rfl

@[simp] theorem update_message_bees_bee_count (db : Db) (c : ChatId) (m : MessageId) (n : Int) :
    (Database.update_message_bees db c m n).bee_count = db.bee_count := rfl

@[simp] theorem update_message_bees_global_frozen (db : Db) (c : ChatId) (m : MessageId) (n : Int) :
    (Database.update_message_bees db c m n).global_frozen = db.global_frozen := rfl

@[simp] theorem add_user_bees_messages (db : Db) (c : ChatId) (u : UserId)
    (un : Option String) (d : Int) :
    (Database.add_user_bees db c u un d).messages = db.messages := by
  unfold Database.add_user_bees; split <;> rfl

@[simp] theorem add_user_bees_global_frozen (db : Db) (c : ChatId) (u : UserId)
    (un : Option String) (d : Int) :
    (Database.add_user_bees db c u un d).global_frozen = db.global_frozen := by
  unfold Database.add_user_bees; split <;> rfl

@[simp] theorem adjust_user_bees_messages (db : Db) (c : ChatId) (u : UserId) (d : Int) :
    (Database.adjust_user_bees db c u d).messages = db.messages := by
  unfold Database.adjust_user_bees; split <;> rfl

@[simp] theorem adjust_user_bees_global_frozen (db : Db) (c : ChatId) (u : UserId) (d : Int) :
    (Database.adjust_user_bees db c u d).global_frozen = db.global_frozen := by
  unfold Database.adjust_user_bees; split <;> rfl

@[simp] theorem freeze_global_messages (db : Db) (u : UserId) (un : Option String) :
    (Database.freeze_global db u un).messages = db.messages := rfl

@[simp] theorem freeze_global_bee_count (db : Db) (u : UserId) (un : Option String) :
    (Database.freeze_global db u un).bee_count = db.bee_count := rfl

/-! Read-after-write lemmas for the Database helpers. -/

theorem get_user_count_eq_of_bee_count (db db' : Db) (h : db'.bee_count = db.bee_count)
    (c : ChatId) (u : UserId) :
    Database.get_user_count db' c u = Database.get_user_count db c u := by
  unfold Database.get_user_count; rw [h]

theorem get_message_bees_eq_of_messages (db db' : Db) (h : db'.messages = db.messages)
    (c : ChatId) (m : MessageId) :
    Database.get_message_bees db' c m = Database.get_message_bees db c m := by
  unfold Database.get_message_bees; rw [h]

theorem is_globally_frozen_eq_of_global_frozen (db db' : Db)
    (h : db'.global_frozen = db.global_frozen) (u : UserId) :
    Database.is_globally_frozen db' u = Database.is_globally_frozen db u := by
  unfold Database.is_globally_frozen; rw [h]

theorem get_user_count_adjust (db : Db) (c : ChatId) (u : UserId) (d : Int) :
    Database.get_user_count (Database.adjust_user_bees db c u d) c u
      = Database.get_user_count db c u + d := by
  by_cases h : d = 0
  · subst h; simp [Database.adjust_user_bees]
  · unfold Database.adjust_user_bees Database.get_user_count
    simp only [h, if_false]
    rw [alistLookup_upsert_self]
    cases hl : alistLookup db.bee_count (c, u) <;> simp

theorem get_user_count_add (db : Db) (c : ChatId) (u : UserId) (un : Option String) (d : Int) :
    Database.get_user_count (Database.add_user_bees db c u un d) c u
      = Database.get_user_count db c u + d := by
  by_cases h : d = 0
  · subst h; simp [Database.add_user_bees]
  · unfold Database.add_user_bees Database.get_user_count
    simp only [h, if_false]
    rw [alistLookup_upsert_self]
    cases hl : alistLookup db.bee_count (c, u) <;> simp

theorem get_message_bees_insert_absent (db : Db) (c : ChatId) (m : MessageId)
    (u : Option UserId) (b : Int) (h : Database.get_message_bees db c m = none) :
    Database.get_message_bees (Database.insert_message db c m u b) c m = some b := by
  unfold Database.get_message_bees at h ⊢
  rw [Option.map_eq_none'] at h
  unfold Database.insert_message
  rw [h]
  simp [alistLookup_append_self (c, m) _ db.messages h]

theorem get_message_bees_update (db : Db) (c : ChatId) (m : MessageId) (n : Int) (old : Int)
    (h : Database.get_message_bees db c m = some old) :
    Database.get_message_bees (Database.update_message_bees db c m n) c m = some n := by
  unfold Database.get_message_bees at h ⊢
  rw [Option.map_eq_some'] at h
  obtain ⟨r, hr, _⟩ := h
  unfold Database.update_message_bees
  simp [alistLookup_update_self, hr]

/-! Counting lemmas: str.count of a one-character needle is the character count. -/

theorem pyCountSubAux_single (b : Char) :
    ∀ (fuel : Nat) (s : List Char), s.length ≤ fuel →
      pyCountSubAux [b] fuel s = s.count b := by
  intro fuel
  induction fuel with
  | zero =>
    intro s hs
    cases s with
    | nil => rfl
    | cons c rest => simp at hs
  | succ n ih =>
    intro s hs
    cases s with
    | nil => rfl
    | cons c rest =>
      have hr : rest.length ≤ n := by simpa using hs
      by_cases h : b = c
      · subst h
        simp [pyCountSubAux, List.isPrefixOf, ih rest hr, List.count_cons]
        omega
      · simp [pyCountSubAux, List.isPrefixOf, h, ih rest hr, List.count_cons, Ne.symm h]

theorem pyCountSub_single (b : Char) (s : List Char) :
    pyCountSub [b] s = s.count b :=
  pyCountSubAux_single b s.length s le_rfl

theorem space_ne_bee : (' ' : Char) ≠ BEE := by decide

theorem bee_ne_space : BEE ≠ (' ' : Char) := by decide

theorem count_bee_space_cons (l : List Char) :
    List.count BEE (' ' :: l) = List.count BEE l := by
  simp [List.count_cons, bee_ne_space]

/-! Handler-level core lemmas. -/

theorem created_noop_of_present (db : Db) (c : ChatId) (m : MessageId)
    (user : Option UserId) (un : Option String) (msg : TgMessage) (v : Int)
    (h : Database.get_message_bees db c m = some v) :
    on_message_created db c m user un msg = db := by
  cases user with
  | none => rfl
  | some uid => simp [on_message_created, h]

theorem created_sets_entry (db : Db) (c : ChatId) (m : MessageId) (uid : UserId)
    (un : Option String) (msg : TgMessage)
    (h : Database.get_message_bees db c m = none) :
    Database.get_message_bees (on_message_created db c m (some uid) un msg) c m
      = some (count_bees_in_message msg : Int) := by
  simp only [on_message_created, h]
  by_cases hf : Database.is_globally_frozen db uid
  · simp only [hf, if_true]
    exact get_message_bees_insert_absent db c m _ _ h
  · simp only [hf, Bool.false_eq_true, if_false]
    rw [get_message_bees_eq_of_messages _ _ (add_user_bees_messages _ _ _ _ _)]
    exact get_message_bees_insert_absent db c m _ _ h

theorem created_fresh (db : Db) (c : ChatId) (m : MessageId) (uid : UserId)
    (un : Option String) (msg : TgMessage)
    (h : Database.get_message_bees db c m = none)
    (hf : Database.is_globally_frozen db uid = false) :
    on_message_created db c m (some uid) un msg
      = Database.add_user_bees
          (Database.insert_message db c m (some uid) (count_bees_in_message msg : Int))
          c uid un (count_bees_in_message msg : Int) := by
  simp [on_message_created, h, hf]

theorem created_user_count (db : Db) (c : ChatId) (m : MessageId) (uid : UserId)
    (un : Option String) (msg : TgMessage)
    (h : Database.get_message_bees db c m = none)
    (hf : Database.is_globally_frozen db uid = false) :
    Database.get_user_count (on_message_created db c m (some uid) un msg) c uid
      = Database.get_user_count db c uid + (count_bees_in_message msg : Int) := by
  rw [created_fresh db c m uid un msg h hf, get_user_count_add,
      get_user_count_eq_of_bee_count db _ (insert_message_bee_count db c m _ _)]

theorem created_global_frozen (db : Db) (c : ChatId) (m : MessageId)
    (user : Option UserId) (un : Option String) (msg : TgMessage) :
    (on_message_created db c m user un msg).global_frozen = db.global_frozen := by
  cases user with
  | none => rfl
  | some uid =>
    simp only [on_message_created]
    cases h : Database.get_message_bees db c m with
    | some v => rfl
    | none =>
      by_cases hf : Database.is_globally_frozen db uid <;> simp [hf]

theorem edit_core (db : Db) (c : ChatId) (m : MessageId) (uid : UserId)
    (un : Option String) (msg : TgMessage) (old : Int)
    (hold : Database.get_message_bees db c m = some old)
    (hfr : Database.is_globally_frozen db uid = false) :
    Database.get_user_count (on_message_edited db c m (some uid) un msg) c uid
      = Database.get_user_count db c uid + ((count_bees_in_message msg : Int) - old)
    ∧ Database.get_message_bees (on_message_edited db c m (some uid) un msg) c m
      = some (count_bees_in_message msg : Int)
    ∧ ((count_bees_in_message msg : Int) = old →
        on_message_edited db c m (some uid) un msg = db) := by
  have hstep : on_message_edited db c m (some uid) un msg
      = if (count_bees_in_message msg : Int) - old = 0 then db
        else Database.update_message_bees
               (Database.adjust_user_bees db c uid ((count_bees_in_message msg : Int) - old))
               c m (count_bees_in_message msg : Int) := by
    simp [on_message_edited, hold, hfr]
  by_cases hz : (count_bees_in_message msg : Int) - old = 0
  · rw [hstep, if_pos hz]
    refine ⟨by omega, ?_, fun _ => rfl⟩
    rw [hold]
    congr 1
    omega
  · rw [hstep, if_neg hz]
    refine ⟨?_, ?_, ?_⟩
    · rw [get_user_count_eq_of_bee_count _ _ (update_message_bees_bee_count _ _ _ _),
          get_user_count_adjust]
    · refine get_message_bees_update _ c m _ old ?_
      rw [get_message_bees_eq_of_messages _ _ (adjust_user_bees_messages _ _ _ _)]
      exact hold
    · intro he
      exact absurd (by omega) hz

/-- C5.  Symbol counting: for every message, count_bees_in_message equals the
number of exact substring occurrences of the bee symbol in the plain
concatenation of the text-bearing surfaces (body text, caption, sticker
emoji label), with no deduplication across surfaces; a message with none of
these surfaces contributes the count of the empty string, 0.  The space
separators the source inserts cannot carry an occurrence of the one-character
symbol, so the totals agree surface by surface. -/
theorem count_bees_concat (msg : TgMessage) :
    count_bees_in_message msg
      = pyCountSub [BEE] (msg.text.getD [] ++ msg.caption.getD [] ++ msg.sticker_emoji.getD []) := by
  obtain ⟨t, cap, e⟩ := msg
  simp only [count_bees_in_message, pyCountSub_single]
  cases t <;> cases cap <;> cases e <;>
    simp [List.count_append, count_bee_space_cons] <;>
    split_ifs <;>
    simp_all [List.count_append, count_bee_space_cons]

theorem is_globally_frozen_freeze (db : Db) (uid : UserId) (un : Option String) (v : UserId) :
    Database.is_globally_frozen (Database.freeze_global db uid un) v
      = (v = uid || Database.is_globally_frozen db v) := by
  by_cases hv : v = uid
  · subst hv
    unfold Database.is_globally_frozen Database.freeze_global
    rw [alistLookup_upsert_self]
    simp
  · unfold Database.is_globally_frozen Database.freeze_global
    rw [alistLookup_upsert_other uid v _ _ _ hv]
    simp [hv]

/-- C6.  Freeze preserves the past: freeze_global rewrites only the
global_frozen_users table; every Ledger row and every Aggregate row is left
exactly as it was, and the only membership change is that the target user is
now frozen. -/
theorem freeze_preserves_past (db : Db) (uid : UserId) (username : Option String) :
    (Database.freeze_global db uid username).messages = db.messages
    ∧ (Database.freeze_global db uid username).bee_count = db.bee_count
    ∧ ∀ v, Database.is_globally_frozen (Database.freeze_global db uid username) v
        = (v = uid || Database.is_globally_frozen db v) :=
  ⟨rfl, rfl, fun v => is_globally_frozen_freeze db uid username v⟩

/-- C1.  Edit delta correctness: when a Ledger entry for (c, m) stores count
old and the editing user is not excluded, the edited path adds exactly
new_count - old (possibly negative) to that user aggregate and sets the
stored Ledger count to new_count; when the recomputed count equals the
stored one the delta is 0 and the whole event changes nothing. -/
theorem edit_delta_correct (db : Db) (c : ChatId) (m : MessageId) (uid : UserId)
    (un : Option String) (msg : TgMessage) (old : Int)
    (hold : Database.get_message_bees db c m = some old)
    (hfr : Database.is_globally_frozen db uid = false) :
    Database.get_user_count (on_message_edited db c m (some uid) un msg) c uid
      = Database.get_user_count db c uid + ((count_bees_in_message msg : Int) - old)
    ∧ Database.get_message_bees (on_message_edited db c m (some uid) un msg) c m
      = some (count_bees_in_message msg : Int)
    ∧ ((count_bees_in_message msg : Int) = old →
        on_message_edited db c m (some uid) un msg = db) :=
  edit_core db c m uid un msg old hold hfr

theorem edit_delta_correct_witness :
    Database.get_message_bees exDbC1 1 1 = some 3
    ∧ Database.is_globally_frozen exDbC1 5 = false
    ∧ (Database.get_user_count (on_message_edited exDbC1 1 1 (some 5) none exMsg7) 1 5
         = Database.get_user_count exDbC1 1 5 + ((count_bees_in_message exMsg7 : Int) - 3)
       ∧ Database.get_message_bees (on_message_edited exDbC1 1 1 (some 5) none exMsg7) 1 1
         = some (count_bees_in_message exMsg7 : Int)
       ∧ ((count_bees_in_message exMsg7 : Int) = 3 →
            on_message_edited exDbC1 1 1 (some 5) none exMsg7 = exDbC1)) :=
  ⟨by decide, by decide, edit_delta_correct exDbC1 1 1 5 none exMsg7 3 (by decide) (by decide)⟩

/-- C2.  Idempotent creation: a second delivery of the same creation event is
a no-op, so running the created path twice with identical arguments leaves
exactly the state of running it once. -/
theorem onCreated_idempotent (db : Db) (c : ChatId) (m : MessageId)
    (user : Option UserId) (un : Option String) (msg : TgMessage) :
    on_message_created (on_message_created db c m user un msg) c m user un msg
      = on_message_created db c m user un msg := by
  cases user with
  | none => rfl
  | some uid =>
    cases h : Database.get_message_bees db c m with
    | some v =>
      have hdb := created_noop_of_present db c m (some uid) un msg v h
      rw [hdb]
      exact hdb
    | none =>
      exact created_noop_of_present _ c m (some uid) un msg _
        (created_sets_entry db c m uid un msg h)

theorem created_eq_runOps (db : Db) (c : ChatId) (m : MessageId)
    (user : Option UserId) (un : Option String) (msg : TgMessage) :
    on_message_created db c m user un msg
      = runOps db (created_ops db c m user un msg) (created_ops db c m user un msg).length := by
  cases user with
  | none => rfl
  | some uid =>
    cases h : Database.get_message_bees db c m with
    | some v => simp [on_message_created, created_ops, h, runOps]
    | none =>
      by_cases hf : Database.is_globally_frozen db uid <;>
        simp [on_message_created, created_ops, h, hf, runOps, applyOp]

/-- C3 counterexample.  The create path issues its Ledger write and its
Aggregate write as two separate store statements (each Database helper in
src acquires its own connection and runs one statement; no transaction
groups them).  Stopping after the first statement of the two-statement
create sequence for a fresh message with three bees leaves the Ledger entry
persisted with count 3 while the user aggregate is still 0 — one of the two
writes applied without the other, refuting the atomic-unit claim. -/
theorem create_not_atomic_cex :
    1 < (created_ops Db.empty 1 1 (some 5) none exMsg3).length
    ∧ Database.get_message_bees
        (runOps Db.empty (created_ops Db.empty 1 1 (some 5) none exMsg3) 1) 1 1 = some 3
    ∧ Database.get_user_count
        (runOps Db.empty (created_ops Db.empty 1 1 (some 5) none exMsg3) 1) 1 5 = 0
    ∧ Database.get_user_count (on_message_created Db.empty 1 1 (some 5) none exMsg3) 1 5 = 3 := by
  decide

/-- C3 amended.  When every store statement of the create path completes,
the full sequence of primitive statements equals the created handler, and
both effects are present afterwards: the Ledger entry holds the computed
count and the non-excluded user aggregate grew by it.  Atomicity against a
failure between the two statements does not hold (see the counterexample). -/
theorem create_both_writes_on_success (db : Db) (c : ChatId) (m : MessageId) (uid : UserId)
    (un : Option String) (msg : TgMessage)
    (hnone : Database.get_message_bees db c m = none)
    (hfr : Database.is_globally_frozen db uid = false) :
    runOps db (created_ops db c m (some uid) un msg)
        (created_ops db c m (some uid) un msg).length
      = on_message_created db c m (some uid) un msg
    ∧ Database.get_message_bees (on_message_created db c m (some uid) un msg) c m
      = some (count_bees_in_message msg : Int)
    ∧ Database.get_user_count (on_message_created db c m (some uid) un msg) c uid
      = Database.get_user_count db c uid + (count_bees_in_message msg : Int) :=
  ⟨(created_eq_runOps db c m (some uid) un msg).symm,
   created_sets_entry db c m uid un msg hnone,
   created_user_count db c m uid un msg hnone hfr⟩

theorem create_both_writes_on_success_witness :
    Database.get_message_bees Db.empty 2 3 = none
    ∧ Database.is_globally_frozen Db.empty 5 = false
    ∧ (runOps Db.empty (created_ops Db.empty 2 3 (some 5) none exMsg1)
          (created_ops Db.empty 2 3 (some 5) none exMsg1).length
        = on_message_created Db.empty 2 3 (some 5) none exMsg1
       ∧ Database.get_message_bees (on_message_created Db.empty 2 3 (some 5) none exMsg1) 2 3
         = some (count_bees_in_message exMsg1 : Int)
       ∧ Database.get_user_count (on_message_created Db.empty 2 3 (some 5) none exMsg1) 2 5
         = Database.get_user_count Db.empty 2 5 + (count_bees_in_message exMsg1 : Int)) :=
  ⟨by decide, by decide,
   create_both_writes_on_success Db.empty 2 3 5 none exMsg1 (by decide) (by decide)⟩

/-- C4.  Zero-count messages tracked: a first-observed message whose content
has no bee symbol still gets a Ledger entry with count 0, and a later edit
that introduces k occurrences raises the user aggregate by exactly k. -/
theorem zero_count_tracked (db : Db) (c : ChatId) (m : MessageId) (uid : UserId)
    (un : Option String) (msg0 msgk : TgMessage)
    (h0 : count_bees_in_message msg0 = 0)
    (hnone : Database.get_message_bees db c m = none)
    (hfr : Database.is_globally_frozen db uid = false) :
    Database.get_message_bees (on_message_created db c m (some uid) un msg0) c m = some 0
    ∧ Database.get_user_count
        (on_message_edited (on_message_created db c m (some uid) un msg0) c m (some uid) un msgk)
        c uid
      = Database.get_user_count db c uid + (count_bees_in_message msgk : Int) := by
  have hentry : Database.get_message_bees (on_message_created db c m (some uid) un msg0) c m
      = some 0 := by
    rw [created_sets_entry db c m uid un msg0 hnone, h0]
    simp
  have hfr1 : Database.is_globally_frozen (on_message_created db c m (some uid) un msg0) uid
      = false := by
    rw [is_globally_frozen_eq_of_global_frozen db _ (created_global_frozen db c m (some uid) un msg0)]
    exact hfr
  have huc1 : Database.get_user_count (on_message_created db c m (some uid) un msg0) c uid
      = Database.get_user_count db c uid := by
    rw [created_user_count db c m uid un msg0 hnone hfr, h0]
    simp
  obtain ⟨h1, _, _⟩ :=
    edit_core (on_message_created db c m (some uid) un msg0) c m uid un msgk 0 hentry hfr1
  refine ⟨hentry, ?_⟩
  rw [h1, huc1]
  omega

theorem zero_count_tracked_witness :
    count_bees_in_message exMsg0 = 0
    ∧ Database.get_message_bees Db.empty 1 1 = none
    ∧ Database.is_globally_frozen Db.empty 5 = false
    ∧ (Database.get_message_bees (on_message_created Db.empty 1 1 (some 5) none exMsg0) 1 1
         = some 0
       ∧ Database.get_user_count
           (on_message_edited (on_message_created Db.empty 1 1 (some 5) none exMsg0)
             1 1 (some 5) none exMsg3)
           1 5
         = Database.get_user_count Db.empty 1 5 + (count_bees_in_message exMsg3 : Int)) :=
  ⟨by decide, by decide, by decide,
   zero_count_tracked Db.empty 1 1 5 none exMsg0 exMsg3 (by decide) (by decide) (by decide)⟩

/-- C7 counterexample.  get_top10 orders only by count descending, with no
secondary sort key, so SQL admits any order among tied rows: on a store
where users 1 and 2 of chat 1 both hold 9 bees, both result sequences are
valid answers of the source query, refuting a deterministic tie-break. -/
theorem get_top10_not_deterministic_cex :
    Database.get_top10 exDbTie 1 [(2, none, 9), (1, none, 9)]
    ∧ Database.get_top10 exDbTie 1 [(1, none, 9), (2, none, 9)]
    ∧ ([(2, none, 9), (1, none, 9)] : List (UserId × Option String × Int))
        ≠ [(1, none, 9), (2, none, 9)] := by
  refine ⟨⟨[((1, 2), ⟨none, 9⟩), ((1, 1), ⟨none, 9⟩)], List.Perm.refl _, ?_, rfl⟩,
          ⟨[((1, 1), ⟨none, 9⟩), ((1, 2), ⟨none, 9⟩)], ?_, ?_, rfl⟩, by decide⟩
  · simp [Database.countsDescending, List.sorted_cons]
  · exact List.Perm.swap _ _ _
  · simp [Database.countsDescending, List.sorted_cons]

/-- C7 amended.  Every result sequence the source query can return for a
conversation is drawn from the rows of that conversation, is sorted
descending by total, and has length at most 10 (the LIMIT is the fixed
constant 10, not a parameter); the order among rows with equal totals is
left open by the query. -/
theorem get_top10_sorted_bounded (db : Db) (chat_id : ChatId)
    (res : List (UserId × Option String × Int))
    (h : Database.get_top10 db chat_id res) :
    res.length ≤ 10
    ∧ List.Sorted (fun a b : UserId × Option String × Int => b.2.2 ≤ a.2.2) res
    ∧ ∀ x ∈ res, ∃ p, p ∈ Database.chatRows db chat_id
        ∧ x = (p.1.2, p.2.username, p.2.count) := by
  obtain ⟨l, hperm, hsort, hres⟩ := h
  subst hres
  refine ⟨?_, ?_, ?_⟩
  · rw [List.length_map, List.length_take]
    omega
  · have hst : List.Sorted (fun a b => b.2.count ≤ a.2.count) (l.take 10) :=
      List.Pairwise.sublist (List.take_sublist 10 l) hsort
    exact List.Pairwise.map _ (fun a b hab => hab) hst
  · intro x hx
    rw [List.mem_map] at hx
    obtain ⟨p, hp, rfl⟩ := hx
    exact ⟨p, hperm.subset (List.mem_of_mem_take hp), rfl⟩

theorem get_top10_sorted_bounded_witness :
    Database.get_top10 exDbTie 1 [(2, none, 9), (1, none, 9)]
    ∧ ([(2, none, 9), (1, none, 9)] : List (UserId × Option String × Int)).length ≤ 10
    ∧ List.Sorted (fun a b : UserId × Option String × Int => b.2.2 ≤ a.2.2)
        ([(2, none, 9), (1, none, 9)] : List (UserId × Option String × Int)) := by
  have hrel : Database.get_top10 exDbTie 1 [(2, none, 9), (1, none, 9)] :=
    ⟨[((1, 2), ⟨none, 9⟩), ((1, 1), ⟨none, 9⟩)], List.Perm.refl _,
     by simp [Database.countsDescending, List.sorted_cons], rfl⟩
  exact ⟨hrel, (get_top10_sorted_bounded exDbTie 1 _ hrel).1,
         (get_top10_sorted_bounded exDbTie 1 _ hrel).2.1⟩

/-- C8.  Freeze-workflow authorization: a caller other than the designated
owner identity is rejected by the freeze proposal, the unfreeze proposal and
the confirmation callback, and none of the three touches any store. -/
theorem non_owner_rejected_no_change (db : Db) (owner caller target : UserId)
    (action : ConfirmAction) (uname : Option String) (h : caller ≠ owner) :
    cmd_freeze db owner caller target = (db, false)
    ∧ cmd_unfreeze db owner caller target = (db, false)
    ∧ on_confirm db owner caller action target uname = (db, false) := by
  refine ⟨?_, ?_, ?_⟩ <;> simp [cmd_freeze, cmd_unfreeze, on_confirm, h]

theorem non_owner_rejected_no_change_witness :
    (2 : Int) ≠ 1
    ∧ (cmd_freeze Db.empty 1 2 7 = (Db.empty, false)
       ∧ cmd_unfreeze Db.empty 1 2 7 = (Db.empty, false)
       ∧ on_confirm Db.empty 1 2 ConfirmAction.freeze 7 none = (Db.empty, false)) :=
  ⟨by decide, non_owner_rejected_no_change Db.empty 1 2 7 ConfirmAction.freeze none (by decide)⟩

/-- C9.  Confirmation idempotence: the owner confirming a freeze for a user
already present in the registry reports success, keeps the membership of
the registry exactly as it was, and leaves the Ledger and Aggregate tables
untouched (the confirmation merely refreshes the cached username of the
already-present row). -/
theorem confirm_freeze_idempotent (db : Db) (owner target : UserId) (uname : Option String)
    (hmem : Database.is_globally_frozen db target = true) :
    (∀ v, Database.is_globally_frozen
            (on_confirm db owner owner ConfirmAction.freeze target uname).1 v
          = Database.is_globally_frozen db v)
    ∧ (on_confirm db owner owner ConfirmAction.freeze target uname).1.messages = db.messages
    ∧ (on_confirm db owner owner ConfirmAction.freeze target uname).1.bee_count = db.bee_count
    ∧ (on_confirm db owner owner ConfirmAction.freeze target uname).2 = true := by
  have hconf : on_confirm db owner owner ConfirmAction.freeze target uname
      = (Database.freeze_global db target uname, true) := by
    simp [on_confirm]
  rw [hconf]
  refine ⟨fun v => ?_, rfl, rfl, rfl⟩
  show Database.is_globally_frozen (Database.freeze_global db target uname) v
      = Database.is_globally_frozen db v
  rw [is_globally_frozen_freeze db target uname v]
  by_cases hv : v = target
  · subst hv
    rw [hmem]
    simp
  · simp [hv]

theorem confirm_freeze_idempotent_witness :
    Database.is_globally_frozen exDbFrozen 7 = true
    ∧ Database.is_globally_frozen (on_confirm exDbFrozen 1 1 ConfirmAction.freeze 7 (some "x")).1 7
        = Database.is_globally_frozen exDbFrozen 7
    ∧ Database.is_globally_frozen (on_confirm exDbFrozen 1 1 ConfirmAction.freeze 7 (some "x")).1 8
        = Database.is_globally_frozen exDbFrozen 8
    ∧ (on_confirm exDbFrozen 1 1 ConfirmAction.freeze 7 (some "x")).1.messages
        = exDbFrozen.messages
    ∧ (on_confirm exDbFrozen 1 1 ConfirmAction.freeze 7 (some "x")).1.bee_count
        = exDbFrozen.bee_count
    ∧ (on_confirm exDbFrozen 1 1 ConfirmAction.freeze 7 (some "x")).2 = true :=
  ⟨by decide,
   (confirm_freeze_idempotent exDbFrozen 1 7 (some "x") (by decide)).1 7,
   (confirm_freeze_idempotent exDbFrozen 1 7 (some "x") (by decide)).1 8,
   (confirm_freeze_idempotent exDbFrozen 1 7 (some "x") (by decide)).2.1,
   (confirm_freeze_idempotent exDbFrozen 1 7 (some "x") (by decide)).2.2.1,
   (confirm_freeze_idempotent exDbFrozen 1 7 (some "x") (by decide)).2.2.2⟩

/-- C10 counterexample.  add_user_bees returns before its upsert when the
delta is 0, so a call with delta 0 and a fresh non-null username changes
nothing: the cached username stays the old value instead of being
overwritten, refuting the unconditional overwrite part of the claim. -/
theorem add_user_bees_zero_delta_cex :
    Database.add_user_bees exDbC10 1 2 (some "b") 0 = exDbC10
    ∧ (alistLookup (Database.add_user_bees exDbC10 1 2 (some "b") 0).bee_count (1, 2)).map
        BeeRow.username
      = some (some "a") := by
  decide

/-- C10 amended.  On an existing aggregate row, adjust_user_bees changes
only the count and never the cached username, and add_user_bees with a null
username adds its delta and keeps the stored username; a non-null username
overwrites the cache only when the delta is nonzero, since a zero-delta
call returns before writing. -/
theorem username_cache_frame (db : Db) (c : ChatId) (u : UserId) (d : Int)
    (uname : String) (r : BeeRow)
    (hr : alistLookup db.bee_count (c, u) = some r) :
    alistLookup (Database.adjust_user_bees db c u d).bee_count (c, u)
      = some ⟨r.username, r.count + d⟩
    ∧ alistLookup (Database.add_user_bees db c u none d).bee_count (c, u)
      = some ⟨r.username, r.count + d⟩
    ∧ (d ≠ 0 →
        alistLookup (Database.add_user_bees db c u (some uname) d).bee_count (c, u)
          = some ⟨some uname, r.count + d⟩) := by
  obtain ⟨run, rc⟩ := r
  refine ⟨?_, ?_, fun hd => ?_⟩
  · by_cases hd : d = 0
    · subst hd
      simp [Database.adjust_user_bees, hr]
    · unfold Database.adjust_user_bees
      simp only [hd, if_false]
      rw [alistLookup_upsert_self]
      simp [hr]
  · by_cases hd : d = 0
    · subst hd
      simp [Database.add_user_bees, hr]
    · unfold Database.add_user_bees
      simp only [hd, if_false]
      rw [alistLookup_upsert_self]
      simp [hr, coalesce]
  · unfold Database.add_user_bees
    simp only [hd, if_false]
    rw [alistLookup_upsert_self]
    simp [hr, coalesce]

theorem username_cache_frame_witness :
    alistLookup exDbC10.bee_count (1, 2) = some ⟨some "a", 5⟩
    ∧ (1 : Int) ≠ 0
    ∧ alistLookup (Database.adjust_user_bees exDbC10 1 2 1).bee_count (1, 2)
        = some ⟨some "a", 5 + 1⟩
    ∧ alistLookup (Database.add_user_bees exDbC10 1 2 none 1).bee_count (1, 2)
        = some ⟨some "a", 5 + 1⟩
    ∧ alistLookup (Database.add_user_bees exDbC10 1 2 (some "b") 1).bee_count (1, 2)
        = some ⟨some "b", 5 + 1⟩ :=
  ⟨by decide, by decide,
   (username_cache_frame exDbC10 1 2 1 "b" ⟨some "a", 5⟩ (by decide)).1,
   (username_cache_frame exDbC10 1 2 1 "b" ⟨some "a", 5⟩ (by decide)).2.1,
   (username_cache_frame exDbC10 1 2 1 "b" ⟨some "a", 5⟩ (by decide)).2.2 (by decide)⟩

end PcholBot
